import Mathlib

/-!
Shallow embedding of the ConvoScope v2 backend job-orchestration subsystem
(src/backend/services/analyzer_service.py, src/backend/services/cache_service.py,
src/backend/config.py), together with theorems settling the specification
claims about it.

Conventions:
* Python strings stay strings ("pending", "processing", "complete", "failed").
* `datetime.now()` timestamps become `Option Nat` fields holding an abstract
  clock value; `None` becomes `none`.
* The filesystem behind `CacheService` (one `{hash}.json` file per digest)
  becomes an association list from digest to entry; an entry is either a
  well-formed stored result or a corrupt file.  Environment failures of
  `open`/`json.dump` are injected through an explicit `WriteOutcome`
  parameter, mirroring the `try/except` blocks in the Python code.
-/

namespace ConvoScope

/-- Abstract summarized analysis result (the `job.results` dict built in
`_run_analysis`).  `payload` abstracts the dict contents, `jsonSize` the byte
length of its JSON serialization (the `st_size` of the cache file). -/
structure Results where
  payload : Nat
  jsonSize : Nat
deriving DecidableEq, Repr

/-- One cache file on disk: either a readable JSON result or a corrupt /
unreadable file of some byte size. -/
inductive Entry
  | good (r : Results)
  | corrupt (sz : Nat)
deriving DecidableEq, Repr

/-- Byte size of a stored cache file (`f.stat().st_size`). -/
def entrySize : Entry → Nat
  | .good r => r.jsonSize
  | .corrupt sz => sz

/-- The cache directory: digest (hex string) to stored file. -/
abbrev CacheStore := List (String × Entry)

namespace CacheService

/-- `Config.CACHE_MAX_SIZE = 1024 * 1024 * 1024` (src/backend/config.py). -/
def CACHE_MAX_SIZE : Nat := 1024 * 1024 * 1024

/-- Environment outcome of one `set` call: the write succeeds, `open` fails
(no file change), or `json.dump` fails midway leaving a truncated/corrupt
file of some size. -/
inductive WriteOutcome
  | ok
  | failOpen
  | failWrite (sz : Nat)
deriving DecidableEq, Repr

/-- `CacheService.get`: look the digest up; a readable file yields its parsed
contents, a corrupt file is caught by the `except` block and yields `None`,
an absent file yields `None`.  Total by construction: no branch raises. -/
def get (st : CacheStore) (h : String) : Option Results :=
  match st.lookup h with
  | some (.good r) => some r
  | some (.corrupt _) => none
  | none => none

/-- Create or overwrite the file named by digest `h` (the effect of opening
`{hash}.json` for writing): replace the existing entry, or add one. -/
def storeWrite (h : String) (e : Entry) : CacheStore → CacheStore
  | [] => [(h, e)]
  | (k, v) :: rest =>
      if k = h then (k, e) :: rest else (k, v) :: storeWrite h e rest

/-- Unlink the file named by digest `h` if present (no-op otherwise). -/
def storeErase (h : String) : CacheStore → CacheStore
  | [] => []
  | (k, v) :: rest =>
      if k = h then rest else (k, v) :: storeErase h rest

/-- `CacheService.set`: write `{hash}.json`, overwriting any prior file with
that name; every exception is caught and logged, never re-raised, so the
function is total for every outcome.  A failed `open` leaves the directory
unchanged; a write that dies inside `json.dump` leaves a truncated file. -/
def set (st : CacheStore) (h : String) (r : Results) : WriteOutcome → CacheStore
  | .ok => storeWrite h (Entry.good r) st
  | .failOpen => st
  | .failWrite sz => storeWrite h (Entry.corrupt sz) st

/-- `CacheService.delete`: unlink the digest's file if present. -/
def delete (st : CacheStore) (h : String) : CacheStore :=
  storeErase h st

/-- `CacheService.clear_all`: unlink every cache file. -/
def clear_all (_st : CacheStore) : CacheStore := []

/-- `CacheService.get_size`: sum of the sizes of all stored files. -/
def get_size (st : CacheStore) : Nat :=
  (st.map (fun p => entrySize p.2)).sum

end CacheService

/-- The mutable fields of `AnalysisJob` (src/backend/services/analyzer_service.py,
class `AnalysisJob`).  `file_path`/`options` are immutable and irrelevant to
the claims, so they are omitted; timestamps hold abstract clock values. -/
structure Job where
  job_id : String
  status : String
  progress : Nat
  current_step : String
  results : Option Results
  error : Option String
  started_at : Option Nat
  completed_at : Option Nat
deriving DecidableEq, Repr

/-- `AnalysisJob.__init__`: status `'pending'`, progress 0, empty step,
no results, no error, no start/completion timestamps. -/
def newJob (jid : String) : Job :=
  { job_id := jid, status := "pending", progress := 0, current_step := "",
    results := none, error := none, started_at := none, completed_at := none }

namespace AnalyzerService

/-- The `job.status in ['pending', 'processing']` guard of `cancel_job`. -/
def cancellable (j : Job) : Bool :=
  j.status == "pending" || j.status == "processing"

/-- The mutation `cancel_job` applies to a cancellable job:
`job.status = 'failed'; job.error = 'Cancelled by user'`. -/
def cancelEffect (j : Job) : Job :=
  { j with status := "failed", error := some "Cancelled by user" }

/-- Apply the in-place mutation of the job object stored under `jid`
(Python mutates the shared `AnalysisJob` object held in the dict). -/
def updateJob (jid : String) (f : Job → Job) : List (String × Job) → List (String × Job)
  | [] => []
  | (k, v) :: rest =>
      if k = jid then (k, f v) :: updateJob jid f rest
      else (k, v) :: updateJob jid f rest

/-- `AnalyzerService.cancel_job` on the registry `self.active_jobs`
(a dict, embedded as an association list keyed by job id): if the id is known
and the job is pending or processing, mark it failed with error
`'Cancelled by user'` and return `True`; otherwise change nothing and
return `False`. -/
def cancel_job (jobs : List (String × Job)) (jid : String) :
    List (String × Job) × Bool :=
  match jobs.lookup jid with
  | some j =>
      if cancellable j then (updateJob jid cancelEffect jobs, true)
      else (jobs, false)
  | none => (jobs, false)

/-- The analysis settings of src/backend/config.py, class `Config`. -/
structure AnalyzerConfig where
  MAX_CONCURRENT_JOBS : Nat
  JOB_TIMEOUT : Nat
deriving DecidableEq, Repr

/-- `Config`: `MAX_CONCURRENT_JOBS = 2`, `JOB_TIMEOUT = 600` seconds. -/
def defaultConfig : AnalyzerConfig :=
  { MAX_CONCURRENT_JOBS := 2, JOB_TIMEOUT := 600 }

/-- The service fields relevant to worker management: `self.running` and the
number of live worker threads ever spawned by `start` (`self.worker_thread`
holds at most one thread). -/
structure ServiceState where
  running : Bool
  workerCount : Nat
deriving DecidableEq, Repr

/-- `AnalyzerService.start`: if not already running, set `running` and spawn
one `threading.Thread(target=self._process_jobs)`.  The method never reads
`MAX_CONCURRENT_JOBS` (the config parameter is present, as `self.config` is,
but unused — exactly as in the source). -/
def start (_cfg : AnalyzerConfig) (s : ServiceState) : ServiceState :=
  if s.running then s
  else { running := true, workerCount := s.workerCount + 1 }

/-- Outcome of the external analyzer work inside `_run_analysis`
(`AdvancedConversationAnalyzer` construction, `load_data`,
`parse_conversations_advanced` and the results computation): either a
summarized result or an exception with message `str(e)`. -/
inductive AnalysisOutcome
  | success (r : Results)
  | failure (msg : String)
deriving DecidableEq, Repr

/-- Observable outcome of one `_run_analysis` call: the job afterwards, the
cache directory afterwards, and whether the external analyzer was invoked. -/
structure RunResult where
  job : Job
  cacheAfter : CacheStore
  analysisInvoked : Bool
deriving DecidableEq, Repr

/-- Sequential (single-threaded) embedding of `AnalyzerService._run_analysis`.
The cache directory is passed in so that statements about cache usage can be
made: the source method never references `cache_service` at all, so the cache
passes through unchanged and the analyzer is invoked unconditionally — there
is no digest computation, no cache lookup, and no cache write.  `durationSecs`
is how long the analyzer work takes; the method contains no timeout check, so
the value influences only the `completed_at` clock reading.  Intermediate
progress emits and concurrent cancellation are covered by the small-step
model below. -/
def run_analysis (cache : CacheStore) (j : Job) (outcome : AnalysisOutcome)
    (durationSecs : Nat) : RunResult :=
  let j1 := { j with status := "processing", started_at := some 0 }
  match outcome with
  | .success r =>
      { job := { j1 with
          results := some r,
          status := "complete",
          completed_at := some durationSecs,
          progress := 100 },
        cacheAfter := cache,
        analysisInvoked := true }
  | .failure m =>
      { job := { j1 with
          status := "failed",
          error := some m,
          completed_at := some durationSecs },
        cacheAfter := cache,
        analysisInvoked := true }

/-- Program counter of the worker for one job, tracking where the code of
`_process_jobs` / `_run_analysis` stands between observable mutations:
* `queued`       — job sits in `job_queue`, worker has not reached it;
* `checked`      — worker got the job and passed the `status != 'failed'` check
                   (line 109), but has not yet executed the first statement of
                   `_run_analysis`;
* `processing0`  — `status = 'processing'`, `started_at` recorded (lines 119-120);
* `prog5`        — after `_emit_progress(job, 5, "Loading data...")`;
* `prog15`       — analyzer constructed and `load_data()` returned, after
                   `_emit_progress(job, 15, ...)`;
* `prog25`       — after `_emit_progress(job, 25, ...)`;
* `prog70`       — `parse_conversations_advanced()` returned, after
                   `_emit_progress(job, 70, ...)`;
* `resultsSet`   — `job.results = {...}` assigned (line 151);
* `completeSet`  — `status = 'complete'`, `completed_at`, `progress = 100`
                   assigned (lines 166-168);
* `done`         — `_emit_complete` done, `_run_analysis` returned;
* `skipped`      — the line-109 check failed, job never dispatched;
* `failedDone`   — the `except` block ran: `status = 'failed'`, `error`,
                   `completed_at` assigned, `_run_analysis` returned. -/
inductive PC
  | queued
  | checked
  | processing0
  | prog5
  | prog15
  | prog25
  | prog70
  | resultsSet
  | completeSet
  | done
  | skipped
  | failedDone
deriving DecidableEq, Repr

/-- One job's observable configuration: the registry record, the worker's
program counter for it, and an abstract global clock (each atomic step
advances it; timestamp fields record its readings). -/
structure Cfg where
  job : Job
  pc : PC
  time : Nat
deriving DecidableEq, Repr

/-- Atomic transitions of the system for a single job.  Worker steps follow
the statement order of `_process_jobs`/`_run_analysis`; `cancel` is
`cancel_job` called concurrently from a request thread and may interleave at
any program point (the worker code contains no cancellation checkpoint, so no
worker step inspects the status except the single line-109 pickup check).
Exceptions can arise from the external analyzer work: constructor/`load_data`
(between `prog5` and `prog15`), `parse_conversations_advanced` (between
`prog25` and `prog70`) and the results computation (between `prog70` and
`resultsSet`); `socketio.emit` is treated as non-raising. -/
inductive Step : Cfg → Cfg → Prop
  | cancel (j : Job) (pc : PC) (t : Nat) (h : AnalyzerService.cancellable j = true) :
      Step ⟨j, pc, t⟩ ⟨AnalyzerService.cancelEffect j, pc, t + 1⟩
  | check_pass (j : Job) (t : Nat) (h : j.status ≠ "failed") :
      Step ⟨j, .queued, t⟩ ⟨j, .checked, t + 1⟩
  | check_skip (j : Job) (t : Nat) (h : j.status = "failed") :
      Step ⟨j, .queued, t⟩ ⟨j, .skipped, t + 1⟩
  | set_processing (j : Job) (t : Nat) :
      Step ⟨j, .checked, t⟩
        ⟨{ j with status := "processing", started_at := some t }, .processing0, t + 1⟩
  | emit5 (j : Job) (t : Nat) :
      Step ⟨j, .processing0, t⟩
        ⟨{ j with progress := 5, current_step := "Loading data..." }, .prog5, t + 1⟩
  | load_ok (j : Job) (t : Nat) :
      Step ⟨j, .prog5, t⟩
        ⟨{ j with progress := 15, current_step := "Data loaded successfully" }, .prog15, t + 1⟩
  | load_fail (j : Job) (t : Nat) (msg : String) :
      Step ⟨j, .prog5, t⟩
        ⟨{ j with status := "failed", error := some msg, completed_at := some t },
          .failedDone, t + 1⟩
  | emit25 (j : Job) (t : Nat) :
      Step ⟨j, .prog15, t⟩
        ⟨{ j with progress := 25, current_step := "Analyzing conversations..." }, .prog25, t + 1⟩
  | parse_ok (j : Job) (t : Nat) (msg : String) :
      Step ⟨j, .prog25, t⟩
        ⟨{ j with progress := 70, current_step := msg }, .prog70, t + 1⟩
  | parse_fail (j : Job) (t : Nat) (msg : String) :
      Step ⟨j, .prog25, t⟩
        ⟨{ j with status := "failed", error := some msg, completed_at := some t },
          .failedDone, t + 1⟩
  | results_ok (j : Job) (t : Nat) (r : Results) :
      Step ⟨j, .prog70, t⟩ ⟨{ j with results := some r }, .resultsSet, t + 1⟩
  | results_fail (j : Job) (t : Nat) (msg : String) :
      Step ⟨j, .prog70, t⟩
        ⟨{ j with status := "failed", error := some msg, completed_at := some t },
          .failedDone, t + 1⟩
  | set_complete (j : Job) (t : Nat) :
      Step ⟨j, .resultsSet, t⟩
        ⟨{ j with status := "complete", completed_at := some t, progress := 100 },
          .completeSet, t + 1⟩
  | emit_complete (j : Job) (t : Nat) :
      Step ⟨j, .completeSet, t⟩ ⟨j, .done, t + 1⟩

/-- Configuration right after `create_job`: a fresh pending job in the queue. -/
def initCfg (jid : String) : Cfg := ⟨newJob jid, .queued, 0⟩

/-- Reachable configurations of one job under any interleaving of the single
worker processing it (at most one worker ever processes a given job, since
a job is dequeued once) and concurrent cancellation requests. -/
inductive Reach (jid : String) : Cfg → Prop
  | init : Reach jid (initCfg jid)
  | step (c c' : Cfg) : Reach jid c → Step c c' → Reach jid c'

/-- Status/error discipline of a job while its runner is between pickup and
the first terminal assignment: it is processing, unless a concurrent
`cancel_job` marked it failed with the cancellation message. -/
def procInv (j : Job) : Prop :=
  j.status = "processing" ∨ (j.status = "failed" ∧ j.error = some "Cancelled by user")

/-- Status/error discipline of a job not yet picked up (or picked up but not
yet marked processing). -/
def pendInv (j : Job) : Prop :=
  j.status = "pending" ∨ (j.status = "failed" ∧ j.error = some "Cancelled by user")

/-- Inductive invariant of the single-job system, by program counter:
pins down the progress value, whether `results` is set, and the possible
status/error combinations at every program point. -/
def StInv (c : Cfg) : Prop :=
  match c.pc with
  | .queued => c.job.progress = 0 ∧ c.job.results = none ∧ pendInv c.job
  | .checked => c.job.progress = 0 ∧ c.job.results = none ∧ pendInv c.job
  | .processing0 => c.job.progress = 0 ∧ c.job.results = none ∧ procInv c.job
  | .prog5 => c.job.progress = 5 ∧ c.job.results = none ∧ procInv c.job
  | .prog15 => c.job.progress = 15 ∧ c.job.results = none ∧ procInv c.job
  | .prog25 => c.job.progress = 25 ∧ c.job.results = none ∧ procInv c.job
  | .prog70 => c.job.progress = 70 ∧ c.job.results = none ∧ procInv c.job
  | .resultsSet => c.job.progress = 70 ∧ (∃ r, c.job.results = some r) ∧ procInv c.job
  | .completeSet =>
      c.job.progress = 100 ∧ (∃ r, c.job.results = some r) ∧
      c.job.status = "complete" ∧ (∃ t, c.job.completed_at = some t)
  | .done =>
      c.job.progress = 100 ∧ (∃ r, c.job.results = some r) ∧
      c.job.status = "complete" ∧ (∃ t, c.job.completed_at = some t)
  | .skipped =>
      c.job.progress = 0 ∧ c.job.results = none ∧ c.job.status = "failed" ∧
      c.job.error = some "Cancelled by user"
  | .failedDone =>
      (c.job.progress = 5 ∨ c.job.progress = 25 ∨ c.job.progress = 70) ∧
      c.job.results = none ∧ c.job.status = "failed" ∧
      (∃ m, c.job.error = some m) ∧ (∃ t, c.job.completed_at = some t)

theorem cancellable_iff (j : Job) :
    cancellable j = true ↔ j.status = "pending" ∨ j.status = "processing" := by
  simp [cancellable]

theorem stInv_step {c c' : Cfg} (hinv : StInv c) (hs : Step c c') : StInv c' := by
  cases hs with
  | cancel j pc t h =>
      have hcanc := (cancellable_iff j).mp h
      cases pc <;>
        simp only [StInv] at hinv ⊢ <;>
        rcases hcanc with hst | hst <;>
        simp_all [pendInv, procInv, cancelEffect]
  | check_pass j t h => exact hinv
  | check_skip j t h =>
      obtain ⟨h0, hres, hpend⟩ := hinv
      rcases hpend with hst | ⟨hst, herr⟩
      · exact absurd hst (by simp_all)
      · exact ⟨h0, hres, hst, herr⟩
  | set_processing j t =>
      obtain ⟨h0, hres, -⟩ := hinv
      exact ⟨h0, hres, Or.inl rfl⟩
  | emit5 j t =>
      obtain ⟨-, hres, hproc⟩ := hinv
      exact ⟨rfl, hres, hproc⟩
  | load_ok j t =>
      obtain ⟨-, hres, hproc⟩ := hinv
      exact ⟨rfl, hres, hproc⟩
  | load_fail j t msg =>
      obtain ⟨h5, hres, -⟩ := hinv
      exact ⟨Or.inl h5, hres, rfl, ⟨msg, rfl⟩, ⟨t, rfl⟩⟩
  | emit25 j t =>
      obtain ⟨-, hres, hproc⟩ := hinv
      exact ⟨rfl, hres, hproc⟩
  | parse_ok j t msg =>
      obtain ⟨-, hres, hproc⟩ := hinv
      exact ⟨rfl, hres, hproc⟩
  | parse_fail j t msg =>
      obtain ⟨h25, hres, -⟩ := hinv
      exact ⟨Or.inr (Or.inl h25), hres, rfl, ⟨msg, rfl⟩, ⟨t, rfl⟩⟩
  | results_ok j t r =>
      obtain ⟨h70, -, hproc⟩ := hinv
      exact ⟨h70, ⟨r, rfl⟩, hproc⟩
  | results_fail j t msg =>
      obtain ⟨h70, hres, -⟩ := hinv
      exact ⟨Or.inr (Or.inr h70), hres, rfl, ⟨msg, rfl⟩, ⟨t, rfl⟩⟩
  | set_complete j t =>
      obtain ⟨-, hres, -⟩ := hinv
      exact ⟨rfl, hres, rfl, ⟨t, rfl⟩⟩
  | emit_complete j t => exact hinv

theorem reach_stInv {jid : String} {c : Cfg} (hr : Reach jid c) : StInv c := by
  induction hr with
  | init => exact ⟨rfl, rfl, Or.inl rfl⟩
  | step c c' _ hs ih => exact stInv_step ih hs

end AnalyzerService

open AnalyzerService

/-- Writing a digest's file and then reading that digest finds the new file. -/
theorem lookup_storeWrite_self (st : CacheStore) (h : String) (e : Entry) :
    (CacheService.storeWrite h e st).lookup h = some e := by
  induction st with
  | nil => simp [CacheService.storeWrite, List.lookup]
  | cons p rest ih =>
    obtain ⟨k, v⟩ := p
    by_cases hk : k = h
    · subst hk
      simp [CacheService.storeWrite, List.lookup]
    · have hkq : (h == k) = false := by
        simp only [beq_eq_false_iff_ne]
        exact fun hkk => hk hkk.symm
      simp [CacheService.storeWrite, List.lookup, hk, hkq, ih]

/-- Writing one digest's file leaves every other digest's lookup unchanged. -/
theorem lookup_storeWrite_ne (st : CacheStore) (h hq : String) (e : Entry)
    (hne : hq ≠ h) :
    (CacheService.storeWrite h e st).lookup hq = st.lookup hq := by
  induction st with
  | nil =>
    have hkq : (hq == h) = false := by simp [beq_eq_false_iff_ne, hne]
    simp [CacheService.storeWrite, List.lookup, hkq]
  | cons p rest ih =>
    obtain ⟨k, v⟩ := p
    by_cases hk : k = h
    · subst hk
      have hkq : (hq == k) = false := by simp [beq_eq_false_iff_ne, hne]
      simp [CacheService.storeWrite, List.lookup, hkq]
    · simp [CacheService.storeWrite, List.lookup, hk, ih]

/-- Total size after overwriting one digest's file: the new file's size plus
the size of everything else. -/
theorem get_size_storeWrite (st : CacheStore) (h : String) (e : Entry) :
    CacheService.get_size (CacheService.storeWrite h e st) =
      entrySize e + CacheService.get_size (CacheService.storeErase h st) := by
  induction st with
  | nil => simp [CacheService.storeWrite, CacheService.storeErase, CacheService.get_size]
  | cons p rest ih =>
    obtain ⟨k, v⟩ := p
    by_cases hk : k = h
    · simp [CacheService.storeWrite, CacheService.storeErase, CacheService.get_size, hk]
    · simp [CacheService.storeWrite, CacheService.storeErase, CacheService.get_size, hk]
        at ih ⊢
      omega

/-- Mutating the job stored under one id and then looking that id up yields
the mutated version of the original lookup result. -/
theorem lookup_updateJob (jobs : List (String × Job)) (jid : String) (f : Job → Job) :
    (updateJob jid f jobs).lookup jid = (jobs.lookup jid).map f := by
  induction jobs with
  | nil => rfl
  | cons p rest ih =>
    obtain ⟨k, v⟩ := p
    by_cases hk : k = jid
    · subst hk
      simp [updateJob, List.lookup]
    · have hkq : (jid == k) = false := by
        simp only [beq_eq_false_iff_ne]
        exact fun hkk => hk hkk.symm
      simp [updateJob, List.lookup, hk, hkq, ih]

/-- C8: on the ContentAddressedCache, `put(digest, value)` followed by
`get(digest)` returns exactly the stored value (the code stores no
last-access timestamp, so the equality is not merely modulo one), and a later
`put` for the same digest overwrites any prior entry — last write wins. -/
theorem C8_roundtrip_last_write_wins (st : CacheStore) (h : String) (r : Results) :
    CacheService.get (CacheService.set st h r .ok) h = some r ∧
    ∀ (r' : Results) (o : CacheService.WriteOutcome),
      CacheService.get (CacheService.set (CacheService.set st h r' o) h r .ok) h = some r := by
  constructor
  · simp [CacheService.get, CacheService.set, lookup_storeWrite_self]
  · intro r' o
    simp [CacheService.get, CacheService.set, lookup_storeWrite_self]

/-- C9: cache read and write failures are never surfaced: `get` is total and
returns a miss (`none`) for a corrupt stored entry exactly as for an absent
one, a `set` whose `open` fails leaves the store untouched and raises
nothing, and a `set` whose write fails midway leaves an entry that is itself
read back as a miss. -/
theorem C9_cache_failures_swallowed (st : CacheStore) (h : String) (r : Results) (sz : Nat) :
    (st.lookup h = some (.corrupt sz) → CacheService.get st h = none) ∧
    (st.lookup h = none → CacheService.get st h = none) ∧
    CacheService.set st h r .failOpen = st ∧
    CacheService.get (CacheService.set st h r (.failWrite sz)) h = none := by
  refine ⟨fun hl => ?_, fun hl => ?_, rfl, ?_⟩
  · simp [CacheService.get, hl]
  · simp [CacheService.get, hl]
  · simp [CacheService.get, CacheService.set, lookup_storeWrite_self]

/-- Witness for C9 at concrete stores: a corrupt entry reads as a miss, an
empty store reads as a miss, a failed-open put is a no-op, and a torn write
reads back as a miss. -/
theorem C9_cache_failures_swallowed_witness :
    CacheService.get [("d", Entry.corrupt 7)] "d" = none ∧
    CacheService.get ([] : CacheStore) "d" = none ∧
    CacheService.set [] "d" ⟨1, 2⟩ .failOpen = [] ∧
    CacheService.get (CacheService.set [] "d" ⟨1, 2⟩ (.failWrite 3)) "d" = none := by
  have h := C9_cache_failures_swallowed [("d", Entry.corrupt 7)] "d" ⟨1, 2⟩ 7
  have h2 := C9_cache_failures_swallowed ([] : CacheStore) "d" ⟨1, 2⟩ 3
  exact ⟨h.1 rfl, h2.2.1 rfl, h2.2.2.1, h2.2.2.2⟩

/-- C6 counterexample: claim "whenever the cache's total size exceeds
CACHE_MAX_SIZE, entries are removed until the total is back under the
ceiling" is false — after a sequence of two `set` calls the total size is
above the ceiling and both entries are still present (`set` contains no
eviction logic and never reads `CACHE_MAX_SIZE`). -/
theorem C6_counterexample :
    CacheService.get_size
        (CacheService.set (CacheService.set [] "d" ⟨0, CacheService.CACHE_MAX_SIZE + 1⟩ .ok)
          "e" ⟨1, 1⟩ .ok) = CacheService.CACHE_MAX_SIZE + 2 ∧
    CacheService.CACHE_MAX_SIZE <
      CacheService.get_size
        (CacheService.set (CacheService.set [] "d" ⟨0, CacheService.CACHE_MAX_SIZE + 1⟩ .ok)
          "e" ⟨1, 1⟩ .ok) ∧
    CacheService.get
        (CacheService.set (CacheService.set [] "d" ⟨0, CacheService.CACHE_MAX_SIZE + 1⟩ .ok)
          "e" ⟨1, 1⟩ .ok) "d" = some ⟨0, CacheService.CACHE_MAX_SIZE + 1⟩ := by
  refine ⟨by decide, by decide, by decide⟩

/-- C6 amended: `set` performs no eviction whatsoever: a successful put
changes the total size exactly by replacing the digest's previous file with
the new one (CACHE_MAX_SIZE is never consulted, so the total can exceed the
ceiling and stay there), and every other digest's entry is untouched. -/
theorem C6_set_never_evicts (st : CacheStore) (h hq : String) (r : Results)
    (hne : hq ≠ h) :
    CacheService.get_size (CacheService.set st h r .ok) =
      r.jsonSize + CacheService.get_size (CacheService.delete st h) ∧
    CacheService.get (CacheService.set st h r .ok) hq = CacheService.get st hq := by
  constructor
  · simpa [CacheService.set, CacheService.delete, entrySize] using
      get_size_storeWrite st h (Entry.good r)
  · simp [CacheService.get, CacheService.set, lookup_storeWrite_ne st h hq _ hne]

/-- Witness for C6 amended at a concrete store. -/
theorem C6_set_never_evicts_witness :
    CacheService.get_size (CacheService.set [("e", Entry.good ⟨1, 1⟩)] "d" ⟨0, 5⟩ .ok) =
      5 + CacheService.get_size (CacheService.delete [("e", Entry.good ⟨1, 1⟩)] "d") ∧
    CacheService.get (CacheService.set [("e", Entry.good ⟨1, 1⟩)] "d" ⟨0, 5⟩ .ok) "e" =
      CacheService.get [("e", Entry.good ⟨1, 1⟩)] "e" :=
  C6_set_never_evicts [("e", Entry.good ⟨1, 1⟩)] "d" "e" ⟨0, 5⟩ (by decide)

/-- C1 counterexample: the claim "cancelJob transitions the job to the
Cancelled state" is false — cancelling a pending job returns `True` but sets
its status to `"failed"` (with error `'Cancelled by user'`); no cancelled
status exists anywhere in the code (`AnalysisJob` documents its statuses as
pending, processing, complete, failed). -/
theorem C1_counterexample :
    (cancel_job [("a", newJob "a")] "a").2 = true ∧
    (cancel_job [("a", newJob "a")] "a").1.lookup "a" =
      some (cancelEffect (newJob "a")) ∧
    (cancelEffect (newJob "a")).status = "failed" ∧
    (cancelEffect (newJob "a")).status ≠ "cancelled" := by
  decide

/-- C1 amended: for a known job whose status is pending or processing,
`cancel_job` marks it failed — not cancelled — with error
`'Cancelled by user'` and returns `True`; for a known job in any other
status, and for an unknown id, it returns `False` and leaves the registry
unchanged. -/
theorem C1_cancel_marks_failed (jobs : List (String × Job)) (jid : String) :
    (∀ j, jobs.lookup jid = some j → cancellable j = true →
        (cancel_job jobs jid).2 = true ∧
        (cancel_job jobs jid).1.lookup jid = some (cancelEffect j) ∧
        (cancelEffect j).status = "failed" ∧
        (cancelEffect j).error = some "Cancelled by user") ∧
    (∀ j, jobs.lookup jid = some j → cancellable j = false →
        cancel_job jobs jid = (jobs, false)) ∧
    (jobs.lookup jid = none → cancel_job jobs jid = (jobs, false)) := by
  refine ⟨fun j hl hc => ?_, fun j hl hc => ?_, fun hl => ?_⟩
  · simp [cancel_job, hl, hc, lookup_updateJob, cancelEffect]
  · simp [cancel_job, hl, hc]
  · simp [cancel_job, hl]

/-- Witness for C1 amended: a concrete one-job registry, covering the
cancellable case, the terminal case and the unknown-id case. -/
theorem C1_cancel_marks_failed_witness :
    ((cancel_job [("a", newJob "a")] "a").2 = true ∧
      (cancel_job [("a", newJob "a")] "a").1.lookup "a" =
        some (cancelEffect (newJob "a")) ∧
      (cancelEffect (newJob "a")).status = "failed" ∧
      (cancelEffect (newJob "a")).error = some "Cancelled by user") ∧
    cancel_job [("a", cancelEffect (newJob "a"))] "a" =
      ([("a", cancelEffect (newJob "a"))], false) ∧
    cancel_job [("a", newJob "a")] "b" = ([("a", newJob "a")], false) := by
  refine ⟨(C1_cancel_marks_failed [("a", newJob "a")] "a").1 (newJob "a") rfl rfl,
    (C1_cancel_marks_failed [("a", cancelEffect (newJob "a"))] "a").2.1
      (cancelEffect (newJob "a")) rfl rfl,
    (C1_cancel_marks_failed [("a", newJob "a")] "b").2.2 rfl⟩

/-- C3 counterexample: the claim that a byte-identical resubmission after a
successful analysis hits the cache and skips the external analysis is false —
`_run_analysis` never touches the cache: after the first successful run the
cache directory is still empty (so no digest can hit), and the second
identical run invokes the external analyzer again. -/
theorem C3_counterexample :
    (run_analysis [] (newJob "a") (.success ⟨1, 4⟩) 0).job.status = "complete" ∧
    (run_analysis [] (newJob "a") (.success ⟨1, 4⟩) 0).cacheAfter = [] ∧
    CacheService.get
      (run_analysis [] (newJob "a") (.success ⟨1, 4⟩) 0).cacheAfter "digest" = none ∧
    (run_analysis (run_analysis [] (newJob "a") (.success ⟨1, 4⟩) 0).cacheAfter
        (newJob "a") (.success ⟨1, 4⟩) 0).analysisInvoked = true := by
  exact ⟨rfl, rfl, rfl, rfl⟩

/-- C3 amended: the runner is not integrated with the ContentAddressedCache
at all — `_run_analysis` computes no digest, performs no cache lookup and no
cache write (the cache passes through every run unchanged), and invokes the
external analyzer on every run, including resubmissions of byte-identical
content.  (The cache is only read by the upload route to report
`has_cached_results`, and no code path ever writes it.) -/
theorem C3_runner_ignores_cache (cache : CacheStore) (j : Job)
    (o : AnalysisOutcome) (d : Nat) :
    (run_analysis cache j o d).cacheAfter = cache ∧
    (run_analysis cache j o d).analysisInvoked = true := by
  cases o <;> exact ⟨rfl, rfl⟩

/-- C4 counterexample: the claim that starting the service creates
`MAX_CONCURRENT_JOBS` (default 2) worker loops is false — `start` spawns
exactly one worker thread. -/
theorem C4_counterexample :
    defaultConfig.MAX_CONCURRENT_JOBS = 2 ∧
    (start defaultConfig ⟨false, 0⟩).workerCount = 1 ∧
    (start defaultConfig ⟨false, 0⟩).workerCount ≠
      defaultConfig.MAX_CONCURRENT_JOBS := by
  decide

/-- C4 amended: `start` spawns a single worker loop when the service is not
yet running and nothing otherwise, independently of the configuration —
`MAX_CONCURRENT_JOBS` is defined in the config but never read, so at most one
analysis runs at a time. -/
theorem C4_start_single_worker (cfg cfg' : AnalyzerConfig) (s : ServiceState) :
    start cfg s = start cfg' s ∧
    (start cfg s).running = true ∧
    (start cfg s).workerCount =
      (if s.running then s.workerCount else s.workerCount + 1) := by
  unfold start
  by_cases hr : s.running <;> simp [hr]

/-- C5 counterexample: the claim that a job running longer than `JOB_TIMEOUT`
is forced to Failed with a distinct timeout error kind is false — the runner
contains no timeout check at all: an analysis taking `JOB_TIMEOUT + 1`
seconds still completes with status complete and no error. -/
theorem C5_counterexample :
    defaultConfig.JOB_TIMEOUT = 600 ∧
    (run_analysis [] (newJob "j") (.success ⟨0, 0⟩)
        (defaultConfig.JOB_TIMEOUT + 1)).job.status = "complete" ∧
    (run_analysis [] (newJob "j") (.success ⟨0, 0⟩)
        (defaultConfig.JOB_TIMEOUT + 1)).job.error = none := by
  exact ⟨rfl, rfl, rfl⟩

/-- C5 amended: the code enforces no job timeout — `JOB_TIMEOUT` is defined
in the config but never read.  However long the analysis takes (any duration
beyond `JOB_TIMEOUT`), a successful analysis still yields status complete
with no error, and a failing analysis carries exactly the analyzer's
exception message: no timeout error kind exists. -/
theorem C5_no_timeout_enforcement (cache : CacheStore) (j : Job) (r : Results)
    (d : Nat) (hd : defaultConfig.JOB_TIMEOUT < d) :
    (run_analysis cache j (.success r) d).job.status = "complete" ∧
    (run_analysis cache j (.success r) d).job.error = j.error ∧
    ∀ m, (run_analysis cache j (.failure m) d).job.error = some m := by
  exact ⟨rfl, rfl, fun m => rfl⟩

/-- Witness for C5 amended at a concrete over-limit duration. -/
theorem C5_no_timeout_enforcement_witness :
    (run_analysis [] (newJob "j") (.success ⟨0, 0⟩) 601).job.status = "complete" ∧
    (run_analysis [] (newJob "j") (.success ⟨0, 0⟩) 601).job.error = (newJob "j").error ∧
    ∀ m, (run_analysis [] (newJob "j") (.failure m) 601).job.error = some m :=
  C5_no_timeout_enforcement [] (newJob "j") ⟨0, 0⟩ 601 (by decide)

/-- The status-transition edges asserted by the specification's §4.2 state
machine (lower-cased to the code's status strings). -/
def specEdge : String → String → Bool
  | "pending", "processing" => true
  | "pending", "cancelled" => true
  | "processing", "cancelled" => true
  | "processing", "complete" => true
  | "processing", "failed" => true
  | _, _ => false

/-- The status-transition edges the code actually takes: cancellation uses
the failed status, a cancel racing the pickup check can be overwritten back
to processing, and a job cancelled while processing is later overwritten to
complete (the runner has no cancellation checkpoint). -/
def codeEdge : String → String → Bool
  | "pending", "processing" => true
  | "failed", "processing" => true
  | "pending", "failed" => true
  | "processing", "failed" => true
  | "processing", "complete" => true
  | "failed", "complete" => true
  | _, _ => false

/-- C2 counterexample: the claim that states change only along the §4.2
edges and that no job leaves a terminal state is false — a job cancelled
while processing (status failed, a terminal state, carrying the cancellation
error) is subsequently marked complete by the runner, a transition outside
every specified edge.  The trace below is: create, worker pickup, mark
processing, concurrent cancel, then the unchecked runner steps through to
completion. -/
theorem C2_counterexample :
    Reach "j1"
      ⟨{ job_id := "j1", status := "failed", progress := 70,
         current_step := "Analyzed 3 messages", results := some ⟨7, 9⟩,
         error := some "Cancelled by user", started_at := some 1,
         completed_at := none }, .resultsSet, 8⟩ ∧
    Step
      ⟨{ job_id := "j1", status := "failed", progress := 70,
         current_step := "Analyzed 3 messages", results := some ⟨7, 9⟩,
         error := some "Cancelled by user", started_at := some 1,
         completed_at := none }, .resultsSet, 8⟩
      ⟨{ job_id := "j1", status := "complete", progress := 100,
         current_step := "Analyzed 3 messages", results := some ⟨7, 9⟩,
         error := some "Cancelled by user", started_at := some 1,
         completed_at := some 8 }, .completeSet, 9⟩ ∧
    specEdge "failed" "complete" = false := by
  refine ⟨?_, ?_, rfl⟩
  · have h0 : Reach "j1" ⟨newJob "j1", .queued, 0⟩ := Reach.init
    have h1 : Reach "j1" ⟨newJob "j1", .checked, 1⟩ :=
      Reach.step _ _ h0 (Step.check_pass _ _ (by decide))
    have h2 : Reach "j1"
        ⟨{ newJob "j1" with
            status := "processing",
            started_at := some 1 }, .processing0, 2⟩ :=
      Reach.step _ _ h1 (Step.set_processing _ _)
    have h3 : Reach "j1"
        ⟨{ newJob "j1" with
            status := "failed",
            error := some "Cancelled by user",
            started_at := some 1 }, .processing0, 3⟩ :=
      Reach.step _ _ h2 (Step.cancel _ _ _ rfl)
    have h4 : Reach "j1"
        ⟨{ newJob "j1" with
            status := "failed",
            error := some "Cancelled by user",
            started_at := some 1,
            progress := 5,
            current_step := "Loading data..." }, .prog5, 4⟩ :=
      Reach.step _ _ h3 (Step.emit5 _ _)
    have h5 : Reach "j1"
        ⟨{ newJob "j1" with
            status := "failed",
            error := some "Cancelled by user",
            started_at := some 1,
            progress := 15,
            current_step := "Data loaded successfully" }, .prog15, 5⟩ :=
      Reach.step _ _ h4 (Step.load_ok _ _)
    have h6 : Reach "j1"
        ⟨{ newJob "j1" with
            status := "failed",
            error := some "Cancelled by user",
            started_at := some 1,
            progress := 25,
            current_step := "Analyzing conversations..." }, .prog25, 6⟩ :=
      Reach.step _ _ h5 (Step.emit25 _ _)
    have h7 : Reach "j1"
        ⟨{ newJob "j1" with
            status := "failed",
            error := some "Cancelled by user",
            started_at := some 1,
            progress := 70,
            current_step := "Analyzed 3 messages" }, .prog70, 7⟩ :=
      Reach.step _ _ h6 (Step.parse_ok _ _ _)
    exact Reach.step _ _ h7 (Step.results_ok _ _ ⟨7, 9⟩)
  · exact Step.set_complete _ _

/-- C2 amended: every transition either leaves the status unchanged or
follows one of the code's edges: pending to processing, pending to failed
(cancel), processing to failed (cancel or exception), processing to
complete, and — because the runner never re-checks the status after pickup —
failed to processing (cancel racing the pickup check) and failed to complete
(cancel while processing); so failed, when reached by cancellation of a live
job, is not terminal. -/
theorem C2_transitions_follow_code_edges {jid : String} {c c' : Cfg}
    (hr : Reach jid c) (hs : Step c c') :
    c'.job.status = c.job.status ∨ codeEdge c.job.status c'.job.status = true := by
  have hinv := reach_stInv hr
  cases hs with
  | cancel j pc t h =>
      rcases (cancellable_iff j).mp h with hst | hst <;>
        simp [cancelEffect, hst, codeEdge]
  | check_pass j t h => exact Or.inl rfl
  | check_skip j t h => exact Or.inl rfl
  | set_processing j t =>
      refine Or.inr ?_
      show codeEdge j.status "processing" = true
      rcases hinv.2.2 with hst | ⟨hst, -⟩ <;> rw [show j.status = _ from hst] <;> decide
  | emit5 j t => exact Or.inl rfl
  | load_ok j t => exact Or.inl rfl
  | load_fail j t msg =>
      rcases hinv.2.2 with hst | ⟨hst, -⟩
      · refine Or.inr ?_
        show codeEdge j.status "failed" = true
        rw [show j.status = _ from hst]
        decide
      · exact Or.inl (show j.status = "failed" from hst).symm
  | emit25 j t => exact Or.inl rfl
  | parse_ok j t msg => exact Or.inl rfl
  | parse_fail j t msg =>
      rcases hinv.2.2 with hst | ⟨hst, -⟩
      · refine Or.inr ?_
        show codeEdge j.status "failed" = true
        rw [show j.status = _ from hst]
        decide
      · exact Or.inl (show j.status = "failed" from hst).symm
  | results_ok j t r => exact Or.inl rfl
  | results_fail j t msg =>
      rcases hinv.2.2 with hst | ⟨hst, -⟩
      · refine Or.inr ?_
        show codeEdge j.status "failed" = true
        rw [show j.status = _ from hst]
        decide
      · exact Or.inl (show j.status = "failed" from hst).symm
  | set_complete j t =>
      refine Or.inr ?_
      show codeEdge j.status "complete" = true
      rcases hinv.2.2 with hst | ⟨hst, -⟩ <;> rw [show j.status = _ from hst] <;> decide
  | emit_complete j t => exact Or.inl rfl

/-- Witness for C2 amended: the initial pickup step of a fresh job. -/
theorem C2_transitions_follow_code_edges_witness :
    (Cfg.mk (newJob "w2") .checked 1).job.status = (initCfg "w2").job.status ∨
    codeEdge (initCfg "w2").job.status
      (Cfg.mk (newJob "w2") .checked 1).job.status = true :=
  C2_transitions_follow_code_edges Reach.init (Step.check_pass _ _ (by decide))

/-- C7: over every reachable configuration of a job, `progress` equals 100
exactly when the status is complete (so a job that fails after partial
progress keeps its last value, below 100), and every step — worker step or
concurrent cancel — leaves `progress` unchanged or increases it, so the
observed progress sequence of a job is non-decreasing. -/
theorem C7_progress_monotone_iff_complete {jid : String} {c c' : Cfg}
    (hr : Reach jid c) :
    (c.job.progress = 100 ↔ c.job.status = "complete") ∧
    (Step c c' → c.job.progress ≤ c'.job.progress) := by
  have hinv := reach_stInv hr
  refine ⟨?_, fun hs => ?_⟩
  · obtain ⟨j, pc, t⟩ := c
    show j.progress = 100 ↔ j.status = "complete"
    cases pc with
    | queued =>
        obtain ⟨h0, -, hp⟩ := hinv
        rcases hp with hst | ⟨hst, -⟩ <;>
          rw [show j.progress = _ from h0, show j.status = _ from hst] <;> decide
    | checked =>
        obtain ⟨h0, -, hp⟩ := hinv
        rcases hp with hst | ⟨hst, -⟩ <;>
          rw [show j.progress = _ from h0, show j.status = _ from hst] <;> decide
    | processing0 =>
        obtain ⟨h0, -, hp⟩ := hinv
        rcases hp with hst | ⟨hst, -⟩ <;>
          rw [show j.progress = _ from h0, show j.status = _ from hst] <;> decide
    | prog5 =>
        obtain ⟨h0, -, hp⟩ := hinv
        rcases hp with hst | ⟨hst, -⟩ <;>
          rw [show j.progress = _ from h0, show j.status = _ from hst] <;> decide
    | prog15 =>
        obtain ⟨h0, -, hp⟩ := hinv
        rcases hp with hst | ⟨hst, -⟩ <;>
          rw [show j.progress = _ from h0, show j.status = _ from hst] <;> decide
    | prog25 =>
        obtain ⟨h0, -, hp⟩ := hinv
        rcases hp with hst | ⟨hst, -⟩ <;>
          rw [show j.progress = _ from h0, show j.status = _ from hst] <;> decide
    | prog70 =>
        obtain ⟨h0, -, hp⟩ := hinv
        rcases hp with hst | ⟨hst, -⟩ <;>
          rw [show j.progress = _ from h0, show j.status = _ from hst] <;> decide
    | resultsSet =>
        obtain ⟨h0, -, hp⟩ := hinv
        rcases hp with hst | ⟨hst, -⟩ <;>
          rw [show j.progress = _ from h0, show j.status = _ from hst] <;> decide
    | completeSet =>
        obtain ⟨h100, -, hcomp, -⟩ := hinv
        rw [show j.progress = _ from h100, show j.status = _ from hcomp]
        decide
    | done =>
        obtain ⟨h100, -, hcomp, -⟩ := hinv
        rw [show j.progress = _ from h100, show j.status = _ from hcomp]
        decide
    | skipped =>
        obtain ⟨h0, -, hst, -⟩ := hinv
        rw [show j.progress = _ from h0, show j.status = _ from hst]
        decide
    | failedDone =>
        obtain ⟨hp, -, hst, -, -⟩ := hinv
        rcases hp with h5 | h25 | h70 <;>
          first
            | rw [show j.progress = _ from h5, show j.status = _ from hst]
            | rw [show j.progress = _ from h25, show j.status = _ from hst]
            | rw [show j.progress = _ from h70, show j.status = _ from hst]
        all_goals decide
  · cases hs with
    | cancel j pc t h => exact le_rfl
    | check_pass j t h => exact le_rfl
    | check_skip j t h => exact le_rfl
    | set_processing j t => exact le_rfl
    | emit5 j t =>
        show j.progress ≤ 5
        rw [show j.progress = _ from hinv.1]
        decide
    | load_ok j t =>
        show j.progress ≤ 15
        rw [show j.progress = _ from hinv.1]
        decide
    | load_fail j t msg => exact le_rfl
    | emit25 j t =>
        show j.progress ≤ 25
        rw [show j.progress = _ from hinv.1]
        decide
    | parse_ok j t msg =>
        show j.progress ≤ 70
        rw [show j.progress = _ from hinv.1]
        decide
    | parse_fail j t msg => exact le_rfl
    | results_ok j t r => exact le_rfl
    | results_fail j t msg => exact le_rfl
    | set_complete j t =>
        show j.progress ≤ 100
        rw [show j.progress = _ from hinv.1]
        decide
    | emit_complete j t => exact le_rfl

/-- Witness for C7 at the initial configuration and its pickup step. -/
theorem C7_progress_monotone_iff_complete_witness :
    ((initCfg "w7").job.progress = 100 ↔ (initCfg "w7").job.status = "complete") ∧
    (initCfg "w7").job.progress ≤ (Cfg.mk (newJob "w7") .checked 1).job.progress := by
  have h := @C7_progress_monotone_iff_complete "w7" (initCfg "w7")
    ⟨newJob "w7", .checked, 1⟩ Reach.init
  exact ⟨h.1, h.2 (Step.check_pass _ _ (by decide))⟩

/-- Program points at which the worker is not actively mutating the job:
still queued (never picked up), skipped at pickup, or the runner has
returned on the success or the exception path.  A job observed failed at one
of these points has ended failed. -/
def runnerIdle : PC → Bool
  | .queued => true
  | .skipped => true
  | .done => true
  | .failedDone => true
  | _ => false

/-- C10 counterexample: the claim that a job that ends failed has its error
field set to a non-empty message is false — `job.error = str(e)`, and an
exception whose `str` is empty (e.g. `raise ValueError()`) leaves
`error = some ""`, the empty message (which `to_dict` then even reports as
`None`, since `''` is falsy).  The trace: create, pickup, mark processing,
emit 5%, then the analyzer raises with an empty message.  The rest of the
claim is visible in the final record: results stayed `none` and
`completed_at` was set on the exception path. -/
theorem C10_counterexample :
    Reach "j2"
      ⟨{ job_id := "j2", status := "failed", progress := 5,
         current_step := "Loading data...", results := none,
         error := some "", started_at := some 1,
         completed_at := some 3 }, .failedDone, 4⟩ ∧
    runnerIdle .failedDone = true ∧
    ({ job_id := "j2", status := "failed", progress := 5,
       current_step := "Loading data...", results := none,
       error := some "", started_at := some 1,
       completed_at := some 3 } : Job).error = some "" ∧
    ("" : String).length = 0 := by
  refine ⟨?_, rfl, rfl, rfl⟩
  have h0 : Reach "j2" ⟨newJob "j2", .queued, 0⟩ := Reach.init
  have h1 : Reach "j2" ⟨newJob "j2", .checked, 1⟩ :=
    Reach.step _ _ h0 (Step.check_pass _ _ (by decide))
  have h2 : Reach "j2"
      ⟨{ newJob "j2" with
          status := "processing",
          started_at := some 1 }, .processing0, 2⟩ :=
    Reach.step _ _ h1 (Step.set_processing _ _)
  have h3 : Reach "j2"
      ⟨{ newJob "j2" with
          status := "processing",
          started_at := some 1,
          progress := 5,
          current_step := "Loading data..." }, .prog5, 3⟩ :=
    Reach.step _ _ h2 (Step.emit5 _ _)
  exact Reach.step _ _ h3 (Step.load_fail _ _ "")

/-- C10 amended: whenever a job has ended failed — cancelled before pickup,
skipped at pickup, or failed through the runner's exception path — its
results field is still `none` and its error field is set to some message
(the cancellation message, or the exception's `str`, which may be empty);
on the exception path `completed_at` is also set, so a `completed_at`
timestamp does not imply successful completion. -/
theorem C10_failed_end_state {jid : String} {c : Cfg} (hr : Reach jid c)
    (hidle : runnerIdle c.pc = true) (hf : c.job.status = "failed") :
    c.job.results = none ∧ (∃ m, c.job.error = some m) ∧
    (c.pc = .failedDone → ∃ t, c.job.completed_at = some t) := by
  have hinv := reach_stInv hr
  obtain ⟨j, pc, t⟩ := c
  cases pc
  case queued =>
    obtain ⟨-, hres, hp⟩ := hinv
    rcases hp with hst | ⟨-, herr⟩
    · rw [hst] at hf
      exact absurd hf (by decide)
    · exact ⟨hres, ⟨_, herr⟩, fun hpc => PC.noConfusion hpc⟩
  case skipped =>
    obtain ⟨-, hres, -, herr⟩ := hinv
    exact ⟨hres, ⟨_, herr⟩, fun hpc => PC.noConfusion hpc⟩
  case done =>
    obtain ⟨-, -, hcomp, -⟩ := hinv
    rw [hcomp] at hf
    exact absurd hf (by decide)
  case failedDone =>
    obtain ⟨-, hres, -, herr, hca⟩ := hinv
    exact ⟨hres, herr, fun _ => hca⟩
  all_goals exact Bool.noConfusion hidle

/-- Witness for C10 amended: a fresh job cancelled while still queued. -/
theorem C10_failed_end_state_witness :
    (cancelEffect (newJob "w10")).results = none ∧
    (∃ m, (cancelEffect (newJob "w10")).error = some m) ∧
    ((PC.queued = PC.failedDone) →
      ∃ t, (cancelEffect (newJob "w10")).completed_at = some t) :=
  C10_failed_end_state
    (Reach.step _ _ (Reach.init : Reach "w10" (initCfg "w10"))
      (Step.cancel (newJob "w10") .queued 0 rfl))
    rfl rfl

end ConvoScope
